import Mathlib

/-!
Shallow embedding of the lesson-plan backend (`backend/services/ai_service.py`,
`backend/services/lesson_service.py`, `backend/routes/lessons.py`).

External effects are modelled explicitly:
* the OpenAI chat-completion call (`call_llm`) is modelled by an
  `Except String LLMResult` parameter: `.ok r` is a successful call whose
  stripped message content is `r.content`, `.error msg` is the message of the
  `Exception("LLM API call failed: ...")` that `call_llm` raises;
* `json.loads` applied to the code-fence-stripped content is modelled by an
  `Except String Json` parameter (`.error e` = a `json.JSONDecodeError` whose
  message is `e`);
* `datetime.now().isoformat()` is modelled by a `String` parameter `now`;
* the Supabase tables are modelled by explicit lists of records, with the
  `.eq` filters and `.update`/`.insert` calls translated to list operations.
-/

/-- Python JSON values (`json.loads` results). Numbers are modelled as
rationals (the numeric literals appearing in the code are 0.7, 0.9, 0.8). -/
inductive Json where
  | null
  | bool (b : Bool)
  | num (q : Rat)
  | str (s : String)
  | arr (elems : List Json)
  | obj (fields : List (String × Json))

/-- Python exceptions that the embedded code can raise. -/
inductive PyError where
  | keyError (key : String)
  | typeError
  | indexError
  | exn (msg : String)
deriving DecidableEq

/-- Dictionary lookup `d[k]` on a field list (first binding wins). -/
def jsonLookup (fields : List (String × Json)) (k : String) : Option Json :=
  match fields with
  | [] => none
  | (k', v) :: rest => if k' = k then some v else jsonLookup rest k

/-- `j[k]` on a `Json` value: a key lookup on an object, `none` otherwise. -/
def Json.get? (j : Json) (k : String) : Option Json :=
  match j with
  | .obj fields => jsonLookup fields k
  | _ => none

/-- Python truthiness of a JSON value (`if objectives:`). -/
def Json.pyTruthy : Json → Bool
  | .null => false
  | .bool b => b
  | .num q => q != 0
  | .str s => s != ""
  | .arr elems => !elems.isEmpty
  | .obj fields => !fields.isEmpty

/-- Python `x[0]`: first element of a list, first character of a string,
`TypeError` / `IndexError` otherwise. -/
def Json.index0 : Json → Except PyError Json
  | .arr [] => .error .indexError
  | .arr (x :: _) => .ok x
  | .str s => if s = "" then .error .indexError else .ok (.str (String.singleton s.front))
  | _ => .error .typeError

/-- Token usage counters returned by the completion endpoint. -/
structure TokenUsage where
  prompt_tokens : Nat
  completion_tokens : Nat
  total_tokens : Nat
deriving DecidableEq

/-- Result of a successful `call_llm`: the (whitespace-stripped) message
content and the usage counters. -/
structure LLMResult where
  content : String
  usage : TokenUsage
deriving DecidableEq

/-! Python string primitives, modelled over the character list of the string
so that they compute by kernel reduction. Python slicing indexes code points,
which coincide with `String.data` entries. -/

/-- Python `s.startswith(pre)`. -/
def pyStartsWith (s pre : String) : Bool := pre.data.isPrefixOf s.data

/-- Python `s.endswith(suf)`. -/
def pyEndsWith (s suf : String) : Bool := suf.data.isSuffixOf s.data

/-- Python `s[n:]`. -/
def pyDrop (s : String) (n : Nat) : String := ⟨s.data.drop n⟩

/-- Python `s[:-n]` for `n ≤ len(s)` (the only uses slice fenced strings). -/
def pyDropRight (s : String) (n : Nat) : String := ⟨s.data.take (s.data.length - n)⟩

/-- Python `s[:n]`. -/
def pyTake (s : String) (n : Nat) : String := ⟨s.data.take n⟩

/-- Python `len(s)`. -/
def pyLen (s : String) : Nat := s.data.length

/-- Python whitespace for `str.strip()`. -/
def isPySpace (c : Char) : Bool :=
  c == ' ' || c == '\t' || c == '\n' || c == '\r' || c == '\x0b' || c == '\x0c'

/-- Python `s.strip()`. -/
def pyStrip (s : String) : String :=
  ⟨((s.data.dropWhile isPySpace).reverse.dropWhile isPySpace).reverse⟩

/-- The code-fence stripping done identically in
`_generate_objectives_and_structure`, `evaluate_lesson_plan` and
`revise_lesson_plan`:
`if content.startswith("```json"): content = content[7:]` then
`if content.endswith("```"): content = content[:-3]`. -/
def stripJsonFences (content : String) : String :=
  let c := if pyStartsWith content "```json" then pyDrop content 7 else content
  if pyEndsWith c "```" then pyDropRight c 3 else c

/-- Occurrence of `t` as a contiguous character subsequence of `s`. -/
def listContainsSub (t : List Char) : List Char → Bool
  | [] => t.isEmpty
  | c :: rest => t.isPrefixOf (c :: rest) || listContainsSub t rest

/-- Python `t in s` on strings. -/
def pyContains (s t : String) : Bool := listContainsSub t.data s.data

mutual
/-- Models `json.dumps` (used only inside prompt texts; the `indent=2`
pretty-printing and string escaping are not modelled — no claim inspects
prompt bodies). -/
def Json.dumps : Json → String
  | .null => "null"
  | .bool true => "true"
  | .bool false => "false"
  | .num q => toString q
  | .str s => "\"" ++ s ++ "\""
  | .arr elems => "[" ++ Json.dumpsElems elems ++ "]"
  | .obj fields => "\x7b" ++ Json.dumpsFields fields ++ "\x7d"

/-- Comma-separated rendering of array elements for `Json.dumps`. -/
def Json.dumpsElems : List Json → String
  | [] => ""
  | [j] => Json.dumps j
  | j :: rest => Json.dumps j ++ ", " ++ Json.dumpsElems rest

/-- Comma-separated rendering of object fields for `Json.dumps`. -/
def Json.dumpsFields : List (String × Json) → String
  | [] => ""
  | [(k, v)] => "\"" ++ k ++ "\": " ++ Json.dumps v
  | (k, v) :: rest => "\"" ++ k ++ "\": " ++ Json.dumps v ++ ", " ++ Json.dumpsFields rest
end

/-- How a `Json` value renders inside a Python f-string: strings render bare,
other values through their textual form (approximated by `Json.dumps`). -/
def Json.pyFormat : Json → String
  | .str s => s
  | j => Json.dumps j

/-- A chat message passed to `call_llm`. -/
structure ChatMessage where
  role : String
  content : String
deriving DecidableEq

/-- The keyword arguments of a `call_llm` invocation; the defaults are the
parameter defaults of `call_llm` itself
(`model="gpt-4o", max_tokens=1500, temperature=0.7`). -/
structure CallConfig where
  model : String := "gpt-4o"
  max_tokens : Nat := 1500
  temperature : Rat := mkRat 7 10
deriving DecidableEq

/-- The system message of `_generate_objectives_and_structure` (also the
exact text hard-coded into its metadata as `system_prompt`). -/
def generationSystemPrompt : String :=
  "You are an expert curriculum designer with 20+ years of experience creating engaging, age-appropriate lesson plans. Always respond with valid JSON."

/-- The generation prompt f-string of `_generate_objectives_and_structure`
(the leading indentation of the Python triple-quoted literal is normalized;
no claim compares prompt bodies against external text). -/
def generationPrompt (topic grade : String) (duration : Int) : String :=
  "\nCreate a comprehensive lesson plan foundation for " ++ grade ++
  " grade students on \"" ++ topic ++ "\" (" ++ toString duration ++ " minutes).\n\n" ++
  "As you create this lesson, explain your pedagogical reasoning for each decision.\n\n" ++
  "Format your response as valid JSON:\n" ++
  "\x7b\n" ++
  "  \"objectives\": [\n" ++
  "    \"Specific, measurable learning objective 1\",\n" ++
  "    \"Specific, measurable learning objective 2\", \n" ++
  "    \"Specific, measurable learning objective 3\"\n" ++
  "  ],\n" ++
  "  \"structure\": \x7b\n" ++
  "    \"introduction\": \"Brief description of lesson introduction (5-10 minutes)\",\n" ++
  "    \"main_activity\": \"Detailed description of the main learning activity with student engagement\",\n" ++
  "    \"assessment\": \"Detailed description of how student learning will be assessed\",\n" ++
  "    \"timing\": \"" ++ toString duration ++ " minutes total with time breakdown\"\n" ++
  "  \x7d,\n" ++
  "  \"pedagogical_reasoning\": \x7b\n" ++
  "    \"objectives_rationale\": \"In one sentence, why I chose these specific objectives for " ++ grade ++
  " grade students learning " ++ topic ++
  ". Consider developmental appropriateness, prior knowledge, and measurable outcomes.\",\n" ++
  "    \"structure_rationale\": \"In one sentence, why this lesson flow and timing works for " ++ grade ++
  " grade students in a " ++ toString duration ++
  "-minute period. Consider attention spans, engagement strategies, and learning progression.\",\n" ++
  "    \"activity_rationale\": \"In one sentence, why I selected this main activity approach for " ++ topic ++
  " at the " ++ grade ++
  " grade level. Consider learning styles, concrete vs abstract thinking, and hands-on vs theoretical approaches.\",\n" ++
  "    \"assessment_rationale\": \"In one sentence, why this assessment method is appropriate for " ++ grade ++
  " graders learning " ++ topic ++
  ". Consider their developmental stage and how to effectively measure understanding.\"\n" ++
  "  \x7d\n" ++
  "\x7d\n\n" ++
  "Requirements:\n" ++
  "- 3-5 clear, measurable learning objectives appropriate for " ++ grade ++ " grade\n" ++
  "- Age-appropriate activities and language\n" ++
  "- Include timing breakdown for each section\n" ++
  "- Focus on student engagement and active learning\n"

/-- The messages list passed to `call_llm` by
`_generate_objectives_and_structure`. -/
def generationMessages (topic grade : String) (duration : Int) : List ChatMessage :=
  [⟨"system", generationSystemPrompt⟩, ⟨"user", generationPrompt topic grade duration⟩]

/-- `call_llm(messages, max_tokens=2000)` — the keyword arguments used at the
generation call site (line 302); model and temperature come from the
`call_llm` defaults. -/
def generationCallConfig : CallConfig := { max_tokens := 2000 }

/-- The system message of `evaluate_lesson_plan`. -/
def evaluationSystemPrompt : String :=
  "You are an expert curriculum evaluator. Provide objective, constructive assessments."

/-- The evaluation prompt f-string of `evaluate_lesson_plan` (indentation of
the triple-quoted literal normalized; `json.dumps(lesson_plan, indent=2)`
rendered through `Json.dumps`). -/
def evaluationPrompt (lesson_plan : Json) (topic grade : String) (duration : Int) : String :=
  "\nEvaluate this lesson plan for " ++ grade ++ " grade students on \"" ++ topic ++
  "\" (" ++ toString duration ++ " minutes).\n\n" ++
  "Lesson Plan:\n" ++ lesson_plan.dumps ++ "\n\n" ++
  "Rate each dimension from 0.0 to 1.0 and provide brief reasoning:\n\n" ++
  "1. Objective Clarity: Are learning objectives specific, measurable, and use action verbs?\n" ++
  "2. Age Appropriateness: Is content suitable for " ++ grade ++
  " grade level in language and complexity?\n" ++
  "3. Completeness: Does it include all required sections with sufficient detail?\n\n" ++
  "Respond with valid JSON:\n" ++
  "\x7b\n" ++
  "  \"objective_clarity\": \x7b\"score\": 0.0-1.0, \"reasoning\": \"brief explanation\"\x7d,\n" ++
  "  \"age_appropriateness\": \x7b\"score\": 0.0-1.0, \"reasoning\": \"brief explanation\"\x7d,\n" ++
  "  \"completeness\": \x7b\"score\": 0.0-1.0, \"reasoning\": \"brief explanation\"\x7d,\n" ++
  "  \"overall_score\": 0.0-1.0,\n" ++
  "  \"suggestions\": [\"improvement suggestion 1\", \"improvement suggestion 2\"]\n" ++
  "\x7d\n"

/-- The messages list passed to `call_llm` by `evaluate_lesson_plan`. -/
def evaluationMessages (lesson_plan : Json) (topic grade : String) (duration : Int) : List ChatMessage :=
  [⟨"system", evaluationSystemPrompt⟩, ⟨"user", evaluationPrompt lesson_plan topic grade duration⟩]

/-- `call_llm(messages, max_tokens=800, temperature=0.3)` — the evaluation
call-site keyword arguments. -/
def evaluationCallConfig : CallConfig := { max_tokens := 800, temperature := mkRat 3 10 }

/-- The system message of `revise_lesson_plan`. -/
def revisionSystemPrompt : String :=
  "You are an expert curriculum designer focused on iterative improvement. You excel at incorporating teacher feedback to create better, more practical lesson plans. Always respond with valid JSON that directly addresses the specific feedback provided."

/-- The revision prompt f-string of `revise_lesson_plan` (indentation of the
triple-quoted literal normalized; `json.dumps(original_plan, indent=2)`
rendered through `Json.dumps`). -/
def revisionPrompt (original_plan : Json) (feedback topic grade : String) (duration : Int) : String :=
  "\nYou are helping a teacher improve their lesson plan based on their specific feedback.\n\n" ++
  "ORIGINAL LESSON PLAN:\n" ++
  "Topic: " ++ topic ++ "\n" ++
  "Grade: " ++ grade ++ "\n" ++
  "Duration: " ++ toString duration ++ " minutes\n\n" ++
  "Current Plan:\n" ++ original_plan.dumps ++ "\n\n" ++
  "TEACHER'S FEEDBACK:\n" ++
  "\"" ++ feedback ++ "\"\n\n" ++
  "Please revise the lesson plan to directly address the teacher's feedback while:\n" ++
  "1. Maintaining educational quality and age-appropriateness for " ++ grade ++ " grade students\n" ++
  "2. Keeping the same topic, grade level, and duration constraints\n" ++
  "3. Preserving what works well from the original plan\n" ++
  "4. Making specific improvements based on the feedback provided\n" ++
  "5. Ensuring all learning objectives remain clear and measurable\n\n" ++
  "IMPORTANT: Focus on the teacher's specific requests. If they want more hands-on activities, add them. If they want it more challenging, increase difficulty. If they want group work, incorporate collaborative elements.\n\n" ++
  "Provide your response in the same JSON format as the original lesson plan:\n" ++
  "\x7b\n" ++
  "  \"title\": \"Revised lesson title reflecting improvements\",\n" ++
  "  \"objectives\": [\"revised objective 1\", \"revised objective 2\", \"revised objective 3\"],\n" ++
  "  \"structure\": \x7b\n" ++
  "    \"introduction\": \"Improved introduction based on feedback\",\n" ++
  "    \"main_activity\": \"Enhanced main activity addressing teacher's requests\",\n" ++
  "    \"assessment\": \"Updated assessment method\",\n" ++
  "    \"timing\": \"" ++ toString duration ++ " minutes with revised timing breakdown\"\n" ++
  "  \x7d,\n" ++
  "  \"resources\": [\n" ++
  "    \x7b\n" ++
  "      \"title\": \"Resource title\",\n" ++
  "      \"type\": \"Resource type (video/worksheet/activity)\",\n" ++
  "      \"url\": \"Resource URL or description\",\n" ++
  "      \"score\": 0.9,\n" ++
  "      \"reasoning\": \"Why this resource fits the revised lesson\"\n" ++
  "    \x7d\n" ++
  "  ],\n" ++
  "  \"materials_needed\": [\"Updated materials list\"],\n" ++
  "  \"differentiation\": \"Enhanced differentiation strategies based on feedback\"\n" ++
  "\x7d\n"

/-- The messages list passed to `call_llm` by `revise_lesson_plan`. -/
def revisionMessages (original_plan : Json) (feedback topic grade : String) (duration : Int) : List ChatMessage :=
  [⟨"system", revisionSystemPrompt⟩,
   ⟨"user", revisionPrompt original_plan feedback topic grade duration⟩]

/-- `call_llm(messages, max_tokens=2000, temperature=0.7)` — the revision
call-site keyword arguments. -/
def revisionCallConfig : CallConfig := { max_tokens := 2000 }

/-- The metadata dictionary built by `_generate_objectives_and_structure`.
`parsing_failed` / `raw_response` model the keys added only on the fallback
path (absent keys ↦ the defaults `false` / `none`). -/
structure GenMetadata where
  prompt_used : String
  system_prompt : String
  model : String
  max_tokens : Nat
  temperature : Rat
  generated_at : String
  token_usage : TokenUsage
  parsing_failed : Bool := false
  raw_response : Option String := none

/-- The dictionary returned by `_generate_objectives_and_structure`: its
non-`"metadata"` entries plus the metadata installed under `"metadata"`
(`result["metadata"] = metadata` shadows any parsed `"metadata"` entry, and
the callers read only through these two projections). -/
structure GenOutput where
  fields : List (String × Json)
  metadata : GenMetadata

/-- `_generate_objectives_and_structure(topic, grade, duration)`.
`outcome` models the `call_llm(generationMessages …, max_tokens=2000)` result;
`parsed` models `json.loads` applied to the fence-stripped content
(`.error e` = a `json.JSONDecodeError` with message `e`); `now` models
`datetime.now().isoformat()`. A parsed non-object value makes
`result["metadata"] = metadata` raise a `TypeError`, which the
`except json.JSONDecodeError` clause does not catch. -/
def _generate_objectives_and_structure (topic grade : String) (duration : Int)
    (outcome : Except String LLMResult) (parsed : Except String Json) (now : String) :
    Except PyError GenOutput :=
  match outcome with
  | .error msg => .error (.exn msg)
  | .ok llm =>
    let metadata : GenMetadata := {
      prompt_used := generationPrompt topic grade duration
      system_prompt := generationSystemPrompt
      model := "gpt-4o"
      max_tokens := 1500
      temperature := mkRat 7 10
      generated_at := now
      token_usage := llm.usage }
    let content := stripJsonFences llm.content
    match parsed with
    | .ok (Json.obj fs) => .ok { fields := fs, metadata := metadata }
    | .ok _ => .error .typeError
    | .error _ =>
      .ok { fields := [
              ("objectives", Json.arr [
                .str ("Students will understand key concepts about " ++ topic),
                .str ("Students will be able to apply " ++ topic ++ " knowledge in practical situations"),
                .str "Students will demonstrate comprehension through assessment activities"]),
              ("structure", Json.obj [
                ("introduction", .str "Engage students with topic overview and prior knowledge activation"),
                ("main_activity", .str (if (Json.str content).pyTruthy then pyTake content 200
                                        else "Interactive lesson activity")),
                ("assessment", .str "Quick formative assessment to check understanding"),
                ("timing", .str (toString duration ++ " minutes total"))])],
            metadata := { metadata with
              parsing_failed := true
              raw_response := some (pyTake content 500) } }

/-- `_find_resources(topic, grade)` — the mocked resource list. -/
def _find_resources (topic grade : String) : Json :=
  .arr [
    .obj [
      ("title", .str ("Educational video about " ++ topic)),
      ("type", .str "video"),
      ("url", .str "https://example.com/video"),
      ("score", .num (mkRat 9 10)),
      ("reasoning", .str ("Highly relevant to " ++ topic ++ ", appropriate for grade " ++ grade))],
    .obj [
      ("title", .str ("Interactive worksheet on " ++ topic)),
      ("type", .str "worksheet"),
      ("url", .str "https://example.com/worksheet"),
      ("score", .num (mkRat 8 10)),
      ("reasoning", .str "Good practice material with clear instructions")]]

/-- `_assemble_lesson_plan(objectives, structure, resources)` — the final
plan dictionary. The title interpolates
`objectives[0] if objectives else 'Custom Topic'`, so a truthy non-indexable
`objectives` raises. -/
def _assemble_lesson_plan (objectives structure_ resources : Json) :
    Except PyError Json := do
  let title ←
    if objectives.pyTruthy then do
      let first ← objectives.index0
      pure ("Lesson Plan: " ++ first.pyFormat)
    else
      pure "Lesson Plan: Custom Topic"
  pure (.obj [
    ("title", .str title),
    ("objectives", objectives),
    ("structure", structure_),
    ("resources", resources),
    ("materials_needed", .arr [.str "Whiteboard", .str "Handouts", .str "Computer/Projector"]),
    ("differentiation", .str "Provide visual aids for visual learners, allow verbal responses for auditory learners")])

/-- The default `thoughts` dictionary of `generate_lesson_plan`. -/
def defaultThoughts : Json := .obj [
  ("objectives_rationale", .str "AI reasoning not available"),
  ("structure_rationale", .str "AI reasoning not available"),
  ("activity_rationale", .str "AI reasoning not available"),
  ("assessment_rationale", .str "AI reasoning not available")]

/-- The dictionary returned by `generate_lesson_plan`. -/
structure GenerateResult where
  plan : Json
  generation_metadata : GenMetadata
  thoughts : Json

/-- `generate_lesson_plan(topic, grade, duration, show_thoughts)`.
Reads `objectives_and_structure["objectives"]` / `["structure"]` by direct
key access (a `KeyError` propagates), assembles the plan and always attaches
the pedagogical reasoning (defaulted when absent). -/
def generate_lesson_plan (topic grade : String) (duration : Int) (show_thoughts : Bool)
    (outcome : Except String LLMResult) (parsed : Except String Json) (now : String) :
    Except PyError GenerateResult := do
  let oas ← _generate_objectives_and_structure topic grade duration outcome parsed now
  let objectives ← match jsonLookup oas.fields "objectives" with
    | some v => Except.ok v
    | none => Except.error (.keyError "objectives")
  let structure_ ← match jsonLookup oas.fields "structure" with
    | some v => Except.ok v
    | none => Except.error (.keyError "structure")
  let resources := _find_resources topic grade
  let final_plan ← _assemble_lesson_plan objectives structure_ resources
  pure {
    plan := final_plan
    generation_metadata := oas.metadata
    thoughts := (jsonLookup oas.fields "pedagogical_reasoning").getD defaultThoughts }

/-- The fixed fallback evaluation of `evaluate_lesson_plan`. -/
def defaultEvaluation : Json := .obj [
  ("objective_clarity", .obj [("score", .num (mkRat 7 10)), ("reasoning", .str "Evaluation failed, default score")]),
  ("age_appropriateness", .obj [("score", .num (mkRat 7 10)), ("reasoning", .str "Evaluation failed, default score")]),
  ("completeness", .obj [("score", .num (mkRat 7 10)), ("reasoning", .str "Evaluation failed, default score")]),
  ("overall_score", .num (mkRat 7 10)),
  ("suggestions", .arr [.str "Manual review needed - evaluation system error"])]

/-- `evaluate_lesson_plan(lesson_plan, topic, grade, duration)`.
`outcome` models the `call_llm(evaluationMessages …, max_tokens=800,
temperature=0.3)` result and `parsed` the `json.loads` of the fence-stripped
content. Every exception (call failure or parse failure) is swallowed into
`defaultEvaluation`; a successfully parsed value is returned as-is. -/
def evaluate_lesson_plan (lesson_plan : Json) (topic grade : String) (duration : Int)
    (outcome : Except String LLMResult) (parsed : Except String Json) : Json :=
  match outcome with
  | .error _ => defaultEvaluation
  | .ok _ =>
    match parsed with
    | .ok evaluation => evaluation
    | .error _ => defaultEvaluation

/-- The revision metadata dictionary of `revise_lesson_plan`: distinct key
sets on the success and parse-failure paths. -/
inductive RevisionMetadata where
  | success (original_feedback revised_at model_used : String)
      (token_usage : TokenUsage) (revision_prompt : String)
  | failed (error feedback failed_at : String)

/-- The dictionary returned by `revise_lesson_plan`. -/
structure ReviseResult where
  plan : Json
  metadata : RevisionMetadata

/-- `revise_lesson_plan(original_plan, feedback, topic, grade, duration)`.
`outcome` models `call_llm(revisionMessages …, max_tokens=2000,
temperature=0.7)`; `parsed` models `json.loads` of the fence-stripped content.
A `json.JSONDecodeError` yields the original plan with failure metadata; any
other exception is re-raised as `Exception("Failed to generate revision: …")`. -/
def revise_lesson_plan (original_plan : Json) (feedback topic grade : String) (duration : Int)
    (outcome : Except String LLMResult) (parsed : Except String Json) (now : String) :
    Except PyError ReviseResult :=
  let revision_prompt := revisionPrompt original_plan feedback topic grade duration
  match outcome with
  | .error msg => .error (.exn ("Failed to generate revision: " ++ msg))
  | .ok llm =>
    match parsed with
    | .ok revised_plan =>
      .ok { plan := revised_plan,
            metadata := .success feedback now "gpt-4o" llm.usage
              (if pyLen revision_prompt > 500 then pyTake revision_prompt 500 ++ "..."
               else revision_prompt) }
    | .error e =>
      .ok { plan := original_plan, metadata := .failed e feedback now }

/-! ### Lesson service (`backend/services/lesson_service.py`)

The Supabase tables `lesson_plans` and `lesson_revisions` are modelled as
record lists; `.eq` filters become boolean filters, `.update` maps the
partial update over the matching rows, `.insert` appends, and the `data`
emptiness checks become emptiness checks on the matching rows. -/

/-- A row of the `lesson_plans` table. Columns never set by the insert in
`generate_lesson` (`evaluation`, `revised_plan_json`, `revision_feedback`,
`current_revision_number`, `user_rating`) carry their database defaults. -/
structure LessonRecord where
  id : String
  user_id : String
  title : Option String
  topic : String
  grade : String
  duration : Int
  plan_json : Json
  agent_thoughts : Option Json
  generation_metadata : Option GenMetadata
  evaluation : Option Json := none
  revised_plan_json : Option Json := none
  revision_feedback : Option String := none
  current_revision_number : Nat := 0
  user_rating : Option Bool := none
  created_at : String
  updated_at : String

/-- A row of the `lesson_revisions` table. -/
structure RevisionRecord where
  lesson_id : String
  revision_number : Nat
  revised_plan_json : Json
  revision_feedback : String
  revision_metadata : RevisionMetadata

/-- The two Supabase tables used by `LessonService`. -/
structure DB where
  lesson_plans : List LessonRecord
  lesson_revisions : List RevisionRecord

/-- The row filter `.eq("id", lesson_id).eq("user_id", user_id)`. -/
def lessonMatches (lesson_id user_id : String) (r : LessonRecord) : Bool :=
  r.id == lesson_id && r.user_id == user_id

/-- The request body of `POST /generate`. -/
structure LessonRequest where
  topic : String
  grade : String
  duration : Int := 60
  title : Option String := none
  show_agent_thoughts : Bool := false

/-- `LessonService.generate_lesson(request, user_id)`: run the generation
pipeline, build the insert payload (title defaulted when falsy), append the
row. `lesson_id` models `uuid.uuid4()`; `created_at`/`updated_at` are the
database-assigned timestamps on the returned row. The background evaluation
task launched afterwards is modelled separately by `_evaluate_lesson_async`. -/
def generate_lesson (db : DB) (request : LessonRequest) (user_id lesson_id : String)
    (outcome : Except String LLMResult) (parsed : Except String Json)
    (now created_at updated_at : String) : Except PyError (DB × LessonRecord) := do
  let lesson_plan ← generate_lesson_plan request.topic request.grade request.duration
    request.show_agent_thoughts outcome parsed now
  let title := if (request.title.getD "") != "" then request.title.getD ""
               else request.topic ++ " - Grade " ++ request.grade
  let lesson_record : LessonRecord := {
    id := lesson_id
    user_id := user_id
    title := some title
    topic := request.topic
    grade := request.grade
    duration := request.duration
    plan_json := lesson_plan.plan
    agent_thoughts := if request.show_agent_thoughts then some lesson_plan.thoughts else none
    generation_metadata := some lesson_plan.generation_metadata
    created_at := created_at
    updated_at := updated_at }
  pure ({ db with lesson_plans := db.lesson_plans ++ [lesson_record] }, lesson_record)

/-- `LessonService.get_lesson(lesson_id, user_id)`:
`select("*").eq("id", …).eq("user_id", …).single()`. A no-match `single()`
yields no data; the route treats that as not found, modelled `none`. -/
def get_lesson (db : DB) (lesson_id user_id : String) : Option LessonRecord :=
  (db.lesson_plans.filter (lessonMatches lesson_id user_id)).head?

/-- `LessonService._evaluate_lesson_async(lesson_id, lesson_plan, topic,
grade, duration)`: run the evaluator (which never raises) and write the
result onto the `evaluation` column of the rows matching `.eq("id", …)`. -/
def _evaluate_lesson_async (db : DB) (lesson_id : String) (lesson_plan : Json)
    (topic grade : String) (duration : Int)
    (outcome : Except String LLMResult) (parsed : Except String Json) : DB :=
  let evaluation := evaluate_lesson_plan lesson_plan topic grade duration outcome parsed
  { db with lesson_plans := db.lesson_plans.map fun r =>
      if r.id == lesson_id then { r with evaluation := some evaluation } else r }

/-- `LessonService.rate_lesson(lesson_id, user_id, rating)`: update
`user_rating` on the owned row; `True` iff the update matched a row. -/
def rate_lesson (db : DB) (lesson_id user_id : String) (rating : Bool) : DB × Bool :=
  let updated := db.lesson_plans.map fun r =>
    if lessonMatches lesson_id user_id r then { r with user_rating := some rating } else r
  ({ db with lesson_plans := updated }, db.lesson_plans.any (lessonMatches lesson_id user_id))

/-- `LessonService._format_lesson(lesson_data)` — field-by-field projection
of a row for the API response (defaults applied by `.get` are carried by the
record's typed fields). -/
def _format_lesson (r : LessonRecord) : LessonRecord :=
  { id := r.id
    user_id := r.user_id
    title := r.title
    topic := r.topic
    grade := r.grade
    duration := r.duration
    plan_json := r.plan_json
    agent_thoughts := r.agent_thoughts
    evaluation := r.evaluation
    generation_metadata := r.generation_metadata
    revised_plan_json := r.revised_plan_json
    revision_feedback := r.revision_feedback
    current_revision_number := r.current_revision_number
    user_rating := r.user_rating
    created_at := r.created_at
    updated_at := r.updated_at }

/-- The partial update dictionary applied by `revise_lesson` to the rows
matching `.eq("id", …).eq("user_id", …)`: latest revision fields set,
`current_revision_number` incremented, `updated_at` refreshed, `user_rating`
reset to `NULL`. -/
def reviseRowUpdate (lesson_id user_id : String) (plan : Json) (feedback : String)
    (next_revision_number : Nat) (now : String) (r : LessonRecord) : LessonRecord :=
  if lessonMatches lesson_id user_id r then
    { r with
      revised_plan_json := some plan
      revision_feedback := some feedback
      current_revision_number := next_revision_number
      updated_at := now
      user_rating := none }
  else r

/-- `LessonService.revise_lesson(lesson_id, user_id, feedback)`. Returns the
updated table state together with the Python result: `None` when no owned row
matches, a raised exception when the AI revision raises, otherwise the
formatted updated row. The new `lesson_revisions` row is inserted before the
`lesson_plans` row is updated (`current_revision_number` incremented, latest
revision fields set, `user_rating` reset to `NULL`). -/
def revise_lesson (db : DB) (lesson_id user_id feedback : String)
    (outcome : Except String LLMResult) (parsed : Except String Json) (now : String) :
    DB × Except PyError (Option LessonRecord) :=
  match db.lesson_plans.filter (lessonMatches lesson_id user_id) with
  | [] => (db, .ok none)
  | original_lesson :: _ =>
    match revise_lesson_plan original_lesson.plan_json feedback original_lesson.topic
        original_lesson.grade original_lesson.duration outcome parsed now with
    | .error e => (db, .error e)
    | .ok revision_result =>
      let next_revision_number := original_lesson.current_revision_number + 1
      let revision_data : RevisionRecord := {
        lesson_id := lesson_id
        revision_number := next_revision_number
        revised_plan_json := revision_result.plan
        revision_feedback := feedback
        revision_metadata := revision_result.metadata }
      let db1 : DB := { db with lesson_revisions := db.lesson_revisions ++ [revision_data] }
      let updated_plans := db1.lesson_plans.map
        (reviseRowUpdate lesson_id user_id revision_result.plan feedback next_revision_number now)
      let db2 : DB := { db1 with lesson_plans := updated_plans }
      match updated_plans.filter (lessonMatches lesson_id user_id) with
      | [] => (db2, .error (.exn "Failed to update lesson with revision"))
      | updated :: _ => (db2, .ok (some (_format_lesson updated)))

/-- Insertion step of the `order("revision_number")` model. -/
def insertByNumber (r : RevisionRecord) : List RevisionRecord → List RevisionRecord
  | [] => [r]
  | x :: xs =>
    if r.revision_number ≤ x.revision_number then r :: x :: xs else x :: insertByNumber r xs

/-- `order("revision_number")` — ascending sort of the selected rows. -/
def orderByRevisionNumber : List RevisionRecord → List RevisionRecord
  | [] => []
  | x :: xs => insertByNumber x (orderByRevisionNumber xs)

/-- `LessonService.get_lesson_revisions(lesson_id, user_id)`: owner check on
`lesson_plans` first (`[]` when it fails), then the revisions of the lesson
ordered by revision number. -/
def get_lesson_revisions (db : DB) (lesson_id user_id : String) : List RevisionRecord :=
  if db.lesson_plans.any (lessonMatches lesson_id user_id) then
    orderByRevisionNumber (db.lesson_revisions.filter (fun r => r.lesson_id == lesson_id))
  else []

/-! ### HTTP routes (`backend/routes/lessons.py`)

Every handler wraps its body in `try: … except Exception as e: raise
HTTPException(status_code=500, detail=str(e))`. FastAPI's `HTTPException`
subclasses `Exception`, so an `HTTPException` raised *inside* the `try` is
caught by that blanket clause and re-raised as a 500 whose detail is
`str(e)` (Starlette renders it as `"{status_code}: {detail}"`). -/

/-- A raised `fastapi.HTTPException`. -/
structure HTTPException where
  status_code : Nat
  detail : String
deriving DecidableEq

/-- `str(e)` for an `HTTPException` (Starlette: `f"{status_code}: {detail}"`). -/
def strOfHTTPException (e : HTTPException) : String :=
  toString e.status_code ++ ": " ++ e.detail

/-- `str(e)` for the other modelled exceptions. -/
def strOfPyError : PyError → String
  | .keyError k => "'" ++ k ++ "'"
  | .typeError => "argument of type error"
  | .indexError => "index out of range"
  | .exn msg => msg

/-- An exception escaping a route handler body: either an `HTTPException`
raised by the handler itself or any other exception bubbling up. -/
inductive RouteError where
  | http (e : HTTPException)
  | py (e : PyError)

/-- The blanket `except Exception as e: raise HTTPException(500, str(e))`
wrapper shared by every handler. -/
def routeWrap {α : Type} (body : Except RouteError α) : Except HTTPException α :=
  match body with
  | .ok a => .ok a
  | .error (.http e) => .error { status_code := 500, detail := strOfHTTPException e }
  | .error (.py e) => .error { status_code := 500, detail := strOfPyError e }

/-- `GET /lessons/{lesson_id}`: fetch the owned lesson, `raise
HTTPException(404, "Lesson not found")` when falsy — inside the `try`. -/
def get_lesson_route (db : DB) (lesson_id user_id : String) :
    Except HTTPException LessonRecord :=
  routeWrap (
    match get_lesson db lesson_id user_id with
    | none => .error (.http { status_code := 404, detail := "Lesson not found" })
    | some lesson => .ok lesson)

/-- The `PUT /lessons/{lesson_id}/rating` response body. -/
structure RatingResponse where
  message : String
  rating : Bool
deriving DecidableEq

/-- `PUT /lessons/{lesson_id}/rating`: submit the rating, `raise
HTTPException(404, "Lesson not found")` when the service reports no match —
inside the `try`. -/
def rate_lesson_route (db : DB) (lesson_id user_id : String) (rating : Bool) :
    DB × Except HTTPException RatingResponse :=
  let res := rate_lesson db lesson_id user_id rating
  (res.1, routeWrap (
    if res.2 then .ok { message := "Rating submitted successfully", rating := rating }
    else .error (.http { status_code := 404, detail := "Lesson not found" })))

/-- `POST /lessons/{lesson_id}/revise`: reject blank feedback with `raise
HTTPException(400, "Feedback cannot be empty")`, call the service, `raise
HTTPException(404, "Lesson not found")` on a falsy result — all inside the
`try`. -/
def revise_lesson_route (db : DB) (lesson_id user_id feedback : String)
    (outcome : Except String LLMResult) (parsed : Except String Json) (now : String) :
    DB × Except HTTPException LessonRecord :=
  if pyStrip feedback == "" then
    (db, routeWrap (.error (.http { status_code := 400, detail := "Feedback cannot be empty" })))
  else
    let res := revise_lesson db lesson_id user_id feedback outcome parsed now
    (res.1, routeWrap (
      match res.2 with
      | .error e => .error (.py e)
      | .ok none => .error (.http { status_code := 404, detail := "Lesson not found" })
      | .ok (some lesson) => .ok lesson))

/-- The `GET /lessons/{lesson_id}/revisions` response body. -/
structure RevisionHistoryResponse where
  lesson_id : String
  revisions : List RevisionRecord

/-- `GET /lessons/{lesson_id}/revisions`: always 200 with whatever list the
service returns (the service maps a failed owner check to `[]`). -/
def get_lesson_revisions_route (db : DB) (lesson_id user_id : String) :
    Except HTTPException RevisionHistoryResponse :=
  routeWrap (.ok {
    lesson_id := lesson_id
    revisions := get_lesson_revisions db lesson_id user_id })

/-! ### Spec-side predicates and scenario state

The following definitions formalize properties stated by the specification
(they are what the claims assert about the source-derived definitions above,
never replacements for them). -/

/-- The spec's plan-document schema: a non-empty `objectives` array and a
`structure` carrying all four of `introduction`, `main_activity`,
`assessment`, `timing`. -/
def specPlanSchemaOk (plan : Json) : Bool :=
  (match plan.get? "objectives" with
   | some (.arr objs) => !objs.isEmpty
   | _ => false) &&
  (match plan.get? "structure" with
   | some st =>
     (st.get? "introduction").isSome && (st.get? "main_activity").isSome &&
     (st.get? "assessment").isSome && (st.get? "timing").isSome
   | none => false)

/-- A rational score lying in `[0, 1]`. -/
def specScoreInRange (q : Rat) : Bool := decide (0 ≤ q) && decide (q ≤ 1)

/-- A rubric sub-score object: `\x7b"score": q ∈ [0,1], …\x7d`. -/
def specIsScoreObj : Json → Bool
  | .obj fs =>
    (match jsonLookup fs "score" with
     | some (.num q) => specScoreInRange q
     | _ => false)
  | _ => false

/-- The spec's evaluator-output invariant: `overall_score ∈ [0,1]` and
exactly three rubric sub-scores, each with a score in `[0,1]`. -/
def specEvalWellFormed (j : Json) : Bool :=
  (match j.get? "overall_score" with
   | some (.num q) => specScoreInRange q
   | _ => false) &&
  (match j.get? "objective_clarity" with | some s => specIsScoreObj s | none => false) &&
  (match j.get? "age_appropriateness" with | some s => specIsScoreObj s | none => false) &&
  (match j.get? "completeness" with | some s => specIsScoreObj s | none => false) &&
  (match j with
   | .obj fs => (fs.filter (fun kv => specIsScoreObj kv.2)).length == 3
   | _ => false)

/-- C7's property exactly as stated, on a generator output: exactly three
templated objectives each referencing the topic, `main_activity` equal to the
(fence-stripped) response text `raw` truncated to 200 characters, metadata
flagged `parsing_failed` with the first 500 characters of `raw`. -/
def specParseFallbackClaim (topic raw : String) (out : Except PyError GenOutput) : Bool :=
  match out with
  | .error _ => false
  | .ok o =>
    (match jsonLookup o.fields "objectives" with
     | some (.arr objs) =>
       objs.length == 3 &&
       objs.all (fun j => match j with
         | .str s => pyContains s topic
         | _ => false)
     | _ => false) &&
    (match jsonLookup o.fields "structure" with
     | some st =>
       (match st.get? "main_activity" with
        | some (.str s) => s == pyTake raw 200
        | _ => false)
     | _ => false) &&
    o.metadata.parsing_failed &&
    (match o.metadata.raw_response with
     | some s => s == pyTake raw 500
     | none => false)

/-- One `revise` call's external inputs: the feedback plus the modelled
completion outcome, parse result and timestamp of that call. -/
structure ReviseInput where
  feedback : String
  outcome : Except String LLMResult
  parsed : Except String Json
  now : String

/-- Sequential `revise_lesson` calls threading the table state. -/
def runRevisions (lesson_id user_id : String) : DB → List ReviseInput → DB
  | db, [] => db
  | db, inp :: rest =>
    runRevisions lesson_id user_id
      (revise_lesson db lesson_id user_id inp.feedback inp.outcome inp.parsed inp.now).1 rest

/-- State invariant for the revision-numbering claim: a single stored lesson
owned by the caller whose revision counter is `n`, with revision rows
numbered exactly `1..n` in table order, all attached to this lesson. -/
def RevisionInv (db : DB) (lesson_id user_id : String) (n : Nat) : Prop :=
  (∃ l, db.lesson_plans = [l] ∧ l.id = lesson_id ∧ l.user_id = user_id ∧
      l.current_revision_number = n) ∧
  db.lesson_revisions.map (fun r => r.revision_number) = List.range' 1 n ∧
  ∀ r ∈ db.lesson_revisions, r.lesson_id = lesson_id

/-- Sample usage counters for concrete scenarios. -/
def sampleUsage : TokenUsage :=
  { prompt_tokens := 100, completion_tokens := 200, total_tokens := 300 }

/-- A sample stored plan document. -/
def samplePlan : Json := .obj [
  ("title", .str "Lesson Plan: Photosynthesis basics"),
  ("objectives", .arr [.str "Students will describe photosynthesis"])]

/-- A sample stored lesson row owned by `alice` (freshly created: revision
counter 0, unrated, unevaluated). -/
def sampleLesson : LessonRecord := {
  id := "lesson-1"
  user_id := "alice"
  title := some "Photosynthesis - Grade 5"
  topic := "Photosynthesis"
  grade := "5"
  duration := 45
  plan_json := samplePlan
  agent_thoughts := none
  generation_metadata := none
  created_at := "2024-01-01T00:00:00"
  updated_at := "2024-01-01T00:00:00" }

/-- A table state holding exactly `sampleLesson` and no revisions. -/
def sampleDB : DB := { lesson_plans := [sampleLesson], lesson_revisions := [] }

/-- The empty table state. -/
def emptyDB : DB := { lesson_plans := [], lesson_revisions := [] }

/-- A syntactically valid model response that is schema-incomplete: empty
objectives and an empty structure object. -/
def schemalessResponse : Json := .obj [("objectives", .arr []), ("structure", .obj [])]

/-- A syntactically valid evaluator response whose overall score is out of
range and which carries no rubric sub-scores. -/
def badEvaluation : Json := .obj [("overall_score", .num 2)]

/-- A revise call whose completion succeeds but whose response fails to
parse. -/
def sampleReviseInp1 : ReviseInput := {
  feedback := "more group work"
  outcome := .ok ⟨"not json", sampleUsage⟩
  parsed := .error "Expecting value: line 1 column 1 (char 0)"
  now := "2024-01-02T00:00:00" }

/-- A revise call whose completion succeeds and whose response parses. -/
def sampleReviseInp2 : ReviseInput := {
  feedback := "add an assessment"
  outcome := .ok ⟨"\x7b\"title\": \"Revised\"\x7d", sampleUsage⟩
  parsed := .ok (.obj [("title", .str "Revised")])
  now := "2024-01-03T00:00:00" }

/-- The service result of revising `sampleLesson` right after rating it
(successful completion, parseable response). -/
def rateThenReviseResult : Except PyError (Option LessonRecord) :=
  (revise_lesson (rate_lesson sampleDB "lesson-1" "alice" true).1 "lesson-1" "alice"
    "add an assessment" (.ok ⟨"\x7b\"title\": \"Revised\"\x7d", sampleUsage⟩)
    (.ok (.obj [("title", .str "Revised")])) "2024-01-02T00:00:00").2

/-- The lesson record carried by `rateThenReviseResult`. -/
def rateThenReviseLesson : LessonRecord :=
  match rateThenReviseResult with
  | .ok (some l) => l
  | _ => sampleLesson

/-- Equality of two lesson rows on every column except `evaluation`. -/
def sameExceptEvaluation (a b : LessonRecord) : Prop :=
  a.id = b.id ∧ a.user_id = b.user_id ∧ a.title = b.title ∧ a.topic = b.topic ∧
  a.grade = b.grade ∧ a.duration = b.duration ∧ a.plan_json = b.plan_json ∧
  a.agent_thoughts = b.agent_thoughts ∧ a.generation_metadata = b.generation_metadata ∧
  a.revised_plan_json = b.revised_plan_json ∧ a.revision_feedback = b.revision_feedback ∧
  a.current_revision_number = b.current_revision_number ∧ a.user_rating = b.user_rating ∧
  a.created_at = b.created_at ∧ a.updated_at = b.updated_at

/-! ## Theorems -/

/-- C1: the claim says that a missing/non-owned record yields a 404 and empty
feedback yields a 400 at the HTTP layer. The code contradicts this: each
handler raises its `HTTPException(404/400)` inside its own `try`, and the
blanket `except Exception` re-raises it as a 500 whose detail is the
stringified inner exception, so the client receives a generic server error.
This theorem evaluates the routes at the failing inputs. -/
theorem http_layer_wraps_4xx_into_500 :
    get_lesson_route emptyDB "lesson-1" "alice"
      = .error { status_code := 500, detail := "404: Lesson not found" } ∧
    (rate_lesson_route emptyDB "lesson-1" "alice" true).2
      = .error { status_code := 500, detail := "404: Lesson not found" } ∧
    (revise_lesson_route sampleDB "lesson-1" "alice" "   "
        (.ok ⟨"x", sampleUsage⟩) (.error "e") "t0").2
      = .error { status_code := 500, detail := "400: Feedback cannot be empty" } ∧
    (revise_lesson_route emptyDB "lesson-1" "alice" "add experiments"
        (.ok ⟨"x", sampleUsage⟩) (.error "e") "t0").2
      = .error { status_code := 500, detail := "404: Lesson not found" } :=
  ⟨rfl, rfl, rfl, rfl⟩

/-- C2 counterexample: a syntactically valid but schema-incomplete model
response (empty `objectives`, empty `structure`) flows through `generate`
unvalidated, so the produced plan violates the claimed schema (non-empty
objectives, four structure fields). -/
theorem generate_schema_counterexample :
    ((generate_lesson_plan "Photosynthesis" "5" 45 false
        (.ok ⟨"\x7b\"objectives\": [], \"structure\": \x7b\x7d\x7d", sampleUsage⟩)
        (.ok schemalessResponse) "2024-01-01T00:00:00").map
      (fun r => specPlanSchemaOk r.plan)) = .ok false := by
  rfl

/-- C2 (amended): whenever the model response is NOT valid JSON, `generate`
returns a plan satisfying the claimed schema — non-empty objectives list and
all four structure fields; the unconditional version fails because a parsed
JSON object is passed through without validation. -/
theorem generate_fallback_satisfies_schema (topic grade : String) (duration : Int)
    (show_thoughts : Bool) (content : String) (usage : TokenUsage) (emsg now : String) :
    ((generate_lesson_plan topic grade duration show_thoughts (.ok ⟨content, usage⟩)
        (.error emsg) now).map (fun r => specPlanSchemaOk r.plan)) = .ok true := by
  rfl

/-- C3: the Reviser's asymmetric failure policy. A failed completion call
propagates as an exception (`Failed to generate revision: …`); a successful
call whose content fails JSON parsing returns the original plan with
`revision_failed`-style metadata carrying the error, feedback and
timestamp — no exception. -/
theorem revise_plan_failure_asymmetry (original_plan : Json) (feedback topic grade : String)
    (duration : Int) (msg : String) (llm : LLMResult) (emsg now : String)
    (parsed : Except String Json) :
    revise_lesson_plan original_plan feedback topic grade duration (.error msg) parsed now
      = .error (.exn ("Failed to generate revision: " ++ msg)) ∧
    revise_lesson_plan original_plan feedback topic grade duration (.ok llm) (.error emsg) now
      = .ok { plan := original_plan, metadata := .failed emsg feedback now } :=
  ⟨rfl, rfl⟩

/-- C5 counterexample: on a successful parse the evaluator returns the parsed
JSON unchecked, so a response with `overall_score = 2` and no rubric
sub-scores is returned as-is, violating the claimed invariant. -/
theorem evaluator_passthrough_counterexample :
    evaluate_lesson_plan samplePlan "Photosynthesis" "5" 45
        (.ok ⟨"\x7b\"overall_score\": 2\x7d", sampleUsage⟩) (.ok badEvaluation)
      = badEvaluation ∧
    specEvalWellFormed badEvaluation = false :=
  ⟨rfl, by rfl⟩

/-- C5 (amended): on call failure or parse failure the evaluator returns the
fixed default evaluation, which satisfies the claimed invariant
(`overall_score ∈ [0,1]`, exactly three rubric sub-scores each in `[0,1]`);
on parse success the parsed JSON is returned without validation, so the
unconditional claim fails. -/
theorem evaluator_fallback_wellformed (lesson_plan : Json) (topic grade : String)
    (duration : Int) (msg : String) (parsed : Except String Json) (llm : LLMResult)
    (emsg : String) :
    evaluate_lesson_plan lesson_plan topic grade duration (.error msg) parsed
      = defaultEvaluation ∧
    evaluate_lesson_plan lesson_plan topic grade duration (.ok llm) (.error emsg)
      = defaultEvaluation ∧
    specEvalWellFormed defaultEvaluation = true :=
  ⟨rfl, rfl, by rfl⟩

/-- C6: the claim says the recorded generation metadata contains the token
budget configured for the completion call. The code contradicts it: the call
is issued with `max_tokens=2000` (`generationCallConfig`) while the metadata
hard-codes `"max_tokens": 1500`, on the success and the fallback path alike.
The other recorded pieces (prompt, system message, model, temperature,
timestamp, usage) are faithful. -/
theorem generation_metadata_token_budget_bug (topic grade : String) (duration : Int)
    (llm : LLMResult) (emsg now : String) (fs : List (String × Json)) :
    ((_generate_objectives_and_structure topic grade duration (.ok llm) (.error emsg) now).map
        (fun o => o.metadata.max_tokens)) = .ok 1500 ∧
    ((_generate_objectives_and_structure topic grade duration (.ok llm) (.ok (.obj fs)) now).map
        (fun o => o.metadata.max_tokens)) = .ok 1500 ∧
    generationCallConfig.max_tokens = 2000 ∧ (1500 : Nat) ≠ 2000 ∧
    ((_generate_objectives_and_structure topic grade duration (.ok llm) (.error emsg) now).map
        (fun o => o.metadata.prompt_used)) = .ok (generationPrompt topic grade duration) ∧
    ((_generate_objectives_and_structure topic grade duration (.ok llm) (.error emsg) now).map
        (fun o => o.metadata.system_prompt)) = .ok generationSystemPrompt ∧
    ((_generate_objectives_and_structure topic grade duration (.ok llm) (.error emsg) now).map
        (fun o => (o.metadata.model, o.metadata.temperature, o.metadata.generated_at,
                   o.metadata.token_usage))) = .ok ("gpt-4o", mkRat 7 10, now, llm.usage) :=
  ⟨rfl, rfl, rfl, by decide, rfl, rfl, rfl⟩

/-- C7 counterexample: for the empty (already whitespace-stripped) model
response — which fails JSON parsing — the fallback's `main_activity` is the
placeholder `"Interactive lesson activity"`, not the response text truncated
to 200 characters (the empty string), and the third templated objective does
not reference the topic; the claim as stated is false at this input. -/
theorem gen_fallback_claim_counterexample :
    specParseFallbackClaim "xylophone" ""
      (_generate_objectives_and_structure "xylophone" "5" 45 (.ok ⟨"", sampleUsage⟩)
        (.error "Expecting value: line 1 column 1 (char 0)") "2024-01-01T00:00:00") = false := by
  rfl

/-- C7 (amended): when the parse fails, `generate` does not raise and returns
the three fixed templated objectives (the first two referencing the topic)
and the templated structure whose `main_activity` is the fence-stripped
response text truncated to 200 characters when that text is non-empty and a
fixed placeholder otherwise, with metadata flagged `parsing_failed: true`
carrying the first 500 characters of the fence-stripped response. -/
theorem gen_fallback_shape (topic grade : String) (duration : Int) (content : String)
    (usage : TokenUsage) (emsg now : String) :
    ∃ o, _generate_objectives_and_structure topic grade duration (.ok ⟨content, usage⟩)
        (.error emsg) now = .ok o ∧
      jsonLookup o.fields "objectives" = some (.arr [
        .str ("Students will understand key concepts about " ++ topic),
        .str ("Students will be able to apply " ++ topic ++ " knowledge in practical situations"),
        .str "Students will demonstrate comprehension through assessment activities"]) ∧
      jsonLookup o.fields "structure" = some (.obj [
        ("introduction", .str "Engage students with topic overview and prior knowledge activation"),
        ("main_activity", .str (if stripJsonFences content != "" then
            pyTake (stripJsonFences content) 200 else "Interactive lesson activity")),
        ("assessment", .str "Quick formative assessment to check understanding"),
        ("timing", .str (toString duration ++ " minutes total"))]) ∧
      o.metadata.parsing_failed = true ∧
      o.metadata.raw_response = some (pyTake (stripJsonFences content) 500) :=
  ⟨_, rfl, rfl, rfl, rfl, rfl⟩

/-- C10: the background evaluation task is a pure frame on everything except
the `evaluation` column: it leaves the revisions table untouched and relates
the lesson table pointwise so that every column other than `evaluation` of
every row is unchanged. -/
theorem background_eval_frame (db : DB) (lesson_id : String) (lesson_plan : Json)
    (topic grade : String) (duration : Int) (outcome : Except String LLMResult)
    (parsed : Except String Json) :
    (_evaluate_lesson_async db lesson_id lesson_plan topic grade duration outcome parsed).lesson_revisions
      = db.lesson_revisions ∧
    List.Forall₂ sameExceptEvaluation db.lesson_plans
      (_evaluate_lesson_async db lesson_id lesson_plan topic grade duration outcome parsed).lesson_plans := by
  refine ⟨rfl, ?_⟩
  show List.Forall₂ sameExceptEvaluation db.lesson_plans (db.lesson_plans.map _)
  rw [List.forall₂_map_right_iff, List.forall₂_same]
  intro r _
  by_cases hc : (r.id == lesson_id) = true <;>
    simp [hc, sameExceptEvaluation]

/-- C4: for a lesson id that exists but belongs to a different owner, `get`,
`rate`, `revise` and `get_revisions` all yield their not-found outcome
(`None`, `False`, `None`, `[]` respectively) and return no content of the
record to the non-owning caller. -/
theorem ownership_non_owner_notfound (db : DB) (lesson_id owner caller : String)
    (rating : Bool) (feedback : String) (outcome : Except String LLMResult)
    (parsed : Except String Json) (now : String)
    (hexists : ∃ r ∈ db.lesson_plans, r.id = lesson_id ∧ r.user_id = owner)
    (hown : ∀ r ∈ db.lesson_plans, r.id = lesson_id → r.user_id = owner)
    (hne : caller ≠ owner) :
    get_lesson db lesson_id caller = none ∧
    (rate_lesson db lesson_id caller rating).2 = false ∧
    (revise_lesson db lesson_id caller feedback outcome parsed now).2 = .ok none ∧
    get_lesson_revisions db lesson_id caller = [] := by
  have hnot : ∀ r ∈ db.lesson_plans, ¬ lessonMatches lesson_id caller r = true := by
    intro r hr hm
    have hids : r.id = lesson_id ∧ r.user_id = caller := by
      simpa [lessonMatches] using hm
    exact hne (hids.2.symm.trans (hown r hr hids.1))
  have hfilter : db.lesson_plans.filter (lessonMatches lesson_id caller) = [] :=
    List.filter_eq_nil_iff.mpr hnot
  have hany : db.lesson_plans.any (lessonMatches lesson_id caller) = false := by
    cases hcase : db.lesson_plans.any (lessonMatches lesson_id caller) with
    | false => rfl
    | true =>
      obtain ⟨r, hr, hm⟩ := List.any_eq_true.mp hcase
      exact absurd hm (hnot r hr)
  refine ⟨?_, ?_, ?_, ?_⟩
  · show (db.lesson_plans.filter (lessonMatches lesson_id caller)).head? = none
    rw [hfilter]; rfl
  · exact hany
  · show (revise_lesson db lesson_id caller feedback outcome parsed now).2 = .ok none
    unfold revise_lesson
    rw [hfilter]
  · unfold get_lesson_revisions
    rw [hany]
    rfl

/-- C4 witness: a concrete store whose only lesson is owned by `alice`;
caller `bob` gets the four not-found outcomes. -/
theorem ownership_non_owner_notfound_witness :
    get_lesson sampleDB "lesson-1" "bob" = none ∧
    (rate_lesson sampleDB "lesson-1" "bob" true).2 = false ∧
    (revise_lesson sampleDB "lesson-1" "bob" "please improve"
      (.ok ⟨"x", sampleUsage⟩) (.error "e") "t0").2 = .ok none ∧
    get_lesson_revisions sampleDB "lesson-1" "bob" = [] :=
  ownership_non_owner_notfound sampleDB "lesson-1" "alice" "bob" true "please improve"
    (.ok ⟨"x", sampleUsage⟩) (.error "e") "t0"
    ⟨sampleLesson, by simp [sampleDB], rfl, rfl⟩
    (by
      intro r hr _
      have : r = sampleLesson := by simpa [sampleDB] using hr
      rw [this]; rfl)
    (by decide)

/-- Every row surviving the owned-row filter after the revise update has its
rating cleared: the update sets `user_rating := none` on exactly the matching
rows, and non-matching rows do not pass the filter. -/
theorem mem_revise_filter_unrated (plans : List LessonRecord) (L U : String) (plan : Json)
    (fb : String) (k : Nat) (now : String) (u : LessonRecord)
    (hu : u ∈ (plans.map (reviseRowUpdate L U plan fb k now)).filter (lessonMatches L U)) :
    u.user_rating = none := by
  rw [List.mem_filter] at hu
  obtain ⟨hmem, hmatch⟩ := hu
  rw [List.mem_map] at hmem
  obtain ⟨r, hr, hru⟩ := hmem
  by_cases hc : lessonMatches L U r = true
  · rw [← hru]
    unfold reviseRowUpdate
    rw [if_pos hc]
  · have : u = r := by rw [← hru]; unfold reviseRowUpdate; rw [if_neg hc]
    rw [this] at hmatch
    exact absurd hmatch hc

/-- A `revise_lesson` call that returns a lesson returns it with
`user_rating` absent. -/
theorem revise_lesson_ok_some_unrated (db : DB) (L U fb : String)
    (outcome : Except String LLMResult) (parsed : Except String Json) (now : String)
    (l : LessonRecord)
    (h : (revise_lesson db L U fb outcome parsed now).2 = .ok (some l)) :
    l.user_rating = none := by
  unfold revise_lesson at h
  rcases hfe : db.lesson_plans.filter (lessonMatches L U) with _ | ⟨orig, rest⟩
  · rw [hfe] at h; simp at h
  · rw [hfe] at h
    dsimp only at h
    rcases hrp : revise_lesson_plan orig.plan_json fb orig.topic orig.grade orig.duration
        outcome parsed now with e | rr
    · rw [hrp] at h; simp at h
    · rw [hrp] at h
      dsimp only at h
      rcases hff : (db.lesson_plans.map (reviseRowUpdate L U rr.plan fb
          (orig.current_revision_number + 1) now)).filter (lessonMatches L U) with _ | ⟨u, us⟩
      · rw [hff] at h; simp at h
      · rw [hff] at h
        simp only [Except.ok.injEq, Option.some.injEq] at h
        have hmem : u ∈ (db.lesson_plans.map (reviseRowUpdate L U rr.plan fb
            (orig.current_revision_number + 1) now)).filter (lessonMatches L U) := by
          rw [hff]; exact List.mem_cons_self u us
        have := mem_revise_filter_unrated db.lesson_plans L U rr.plan fb
          (orig.current_revision_number + 1) now u hmem
        rw [← h]
        simpa [_format_lesson] using this

/-- C9: for every store and every prior rating value, a `rate` call followed
by a successful `revise` call yields a lesson whose `user_rating` is absent
(the revise update resets the rating to `NULL`). -/
theorem rate_then_revise_unrated (db : DB) (lesson_id user_id : String) (rating : Bool)
    (feedback : String) (outcome : Except String LLMResult) (parsed : Except String Json)
    (now : String) (l : LessonRecord)
    (h : (revise_lesson (rate_lesson db lesson_id user_id rating).1 lesson_id user_id
            feedback outcome parsed now).2 = .ok (some l)) :
    l.user_rating = none :=
  revise_lesson_ok_some_unrated (rate_lesson db lesson_id user_id rating).1
    lesson_id user_id feedback outcome parsed now l h

/-- C9 witness: rating `sampleLesson` thumbs-up and then revising it
successfully returns a lesson, and that lesson is unrated. -/
theorem rate_then_revise_unrated_witness :
    rateThenReviseResult = .ok (some rateThenReviseLesson) ∧
    rateThenReviseLesson.user_rating = none :=
  ⟨rfl, rate_then_revise_unrated sampleDB "lesson-1" "alice" true "add an assessment"
    (.ok ⟨"\x7b\"title\": \"Revised\"\x7d", sampleUsage⟩)
    (.ok (.obj [("title", .str "Revised")])) "2024-01-02T00:00:00" rateThenReviseLesson rfl⟩

/-- A revision call whose completion succeeded never raises: a parse failure
still yields an `ok` result (with the original plan). -/
theorem revise_lesson_plan_ok (op : Json) (fb t g : String) (d : Int) (llm : LLMResult)
    (p : Except String Json) (now : String) :
    ∃ rr, revise_lesson_plan op fb t g d (.ok llm) p now = .ok rr := by
  cases p with
  | error e => exact ⟨_, rfl⟩
  | ok v => exact ⟨_, rfl⟩

/-- `range'` is sorted. -/
theorem pairwise_le_range' (s n : Nat) : (List.range' s n).Pairwise (fun a b => a ≤ b) := by
  induction n generalizing s with
  | zero => exact List.Pairwise.nil
  | succ n ih =>
    rw [List.range'_succ]
    refine List.pairwise_cons.mpr ⟨?_, ih (s+1)⟩
    intro b hb
    have := (List.mem_range'_1.mp hb).1
    omega

/-- Inserting below every element of a list prepends. -/
theorem insertByNumber_of_le (r : RevisionRecord) (xs : List RevisionRecord)
    (h : ∀ x ∈ xs, r.revision_number ≤ x.revision_number) :
    insertByNumber r xs = r :: xs := by
  cases xs with
  | nil => rfl
  | cons x xs => simp [insertByNumber, h x (List.mem_cons_self x xs)]

/-- Sorting a list already ascending by revision number is the identity. -/
theorem orderBy_of_sorted (xs : List RevisionRecord)
    (h : xs.Pairwise (fun a b => a.revision_number ≤ b.revision_number)) :
    orderByRevisionNumber xs = xs := by
  induction xs with
  | nil => rfl
  | cons x xs ih =>
    rw [orderByRevisionNumber, ih (List.Pairwise.of_cons h)]
    exact insertByNumber_of_le x xs fun y hy => List.rel_of_pairwise_cons h hy

/-- Rows whose numbers read `1..n` in table order are ascending. -/
theorem pairwise_of_map_range' (xs : List RevisionRecord) (n : Nat)
    (h : xs.map (fun r => r.revision_number) = List.range' 1 n) :
    xs.Pairwise (fun a b => a.revision_number ≤ b.revision_number) := by
  have hp : (xs.map (fun r => r.revision_number)).Pairwise (fun a b => a ≤ b) := by
    rw [h]; exact pairwise_le_range' 1 n
  exact List.pairwise_map.mp hp

/-- One successful `revise_lesson` call advances the revision invariant from
`n` to `n + 1`. -/
theorem revise_step_inv (db : DB) (L U : String) (n : Nat) (fb : String) (llm : LLMResult)
    (p : Except String Json) (now : String)
    (hinv : RevisionInv db L U n) :
    RevisionInv (revise_lesson db L U fb (.ok llm) p now).1 L U (n + 1) := by
  obtain ⟨⟨l, hplans, hid, huid, hcount⟩, hnums, hlid⟩ := hinv
  have hm : lessonMatches L U l = true := by
    simp [lessonMatches, hid, huid]
  have hfilter : db.lesson_plans.filter (lessonMatches L U) = [l] := by
    rw [hplans]; simp [List.filter, hm]
  obtain ⟨rr, hrr⟩ := revise_lesson_plan_ok l.plan_json fb l.topic l.grade l.duration llm p now
  unfold revise_lesson
  rw [hfilter]
  dsimp only
  rw [hrr]
  dsimp only
  rw [hplans]
  dsimp only [List.map]
  have hupd : reviseRowUpdate L U rr.plan fb (l.current_revision_number + 1) now l =
      { l with
        revised_plan_json := some rr.plan
        revision_feedback := some fb
        current_revision_number := l.current_revision_number + 1
        updated_at := now
        user_rating := none } := by
    unfold reviseRowUpdate; rw [if_pos hm]
  rw [hupd]
  have hm2 : lessonMatches L U
      { l with
        revised_plan_json := some rr.plan
        revision_feedback := some fb
        current_revision_number := l.current_revision_number + 1
        updated_at := now
        user_rating := none } = true := by
    simp [lessonMatches, hid, huid]
  rw [List.filter_cons_of_pos hm2]
  dsimp only [List.filter]
  refine ⟨⟨_, rfl, hid, huid, ?_⟩, ?_, ?_⟩
  · show l.current_revision_number + 1 = n + 1
    rw [hcount]
  · rw [List.map_append, hnums]
    simp [List.range'_1_concat, hcount, Nat.add_comm]
  · intro r hr
    rcases List.mem_append.mp hr with hold | hnew
    · exact hlid r hold
    · rw [List.mem_singleton.mp hnew]

/-- Iterating successful revisions advances the invariant by the number of
calls. -/
theorem runRevisions_inv (L U : String) (inputs : List ReviseInput) :
    ∀ (db : DB) (n : Nat), RevisionInv db L U n →
      (∀ inp ∈ inputs, ∃ llm, inp.outcome = .ok llm) →
      RevisionInv (runRevisions L U db inputs) L U (n + inputs.length) := by
  induction inputs with
  | nil =>
    intro db n h _
    simpa [runRevisions] using h
  | cons inp rest ih =>
    intro db n h hok
    obtain ⟨llm, hllm⟩ := hok inp (List.mem_cons_self inp rest)
    have hstep : RevisionInv (revise_lesson db L U inp.feedback inp.outcome inp.parsed inp.now).1
        L U (n + 1) := by
      rw [hllm]
      exact revise_step_inv db L U n inp.feedback llm inp.parsed inp.now h
    have hrest := ih (revise_lesson db L U inp.feedback inp.outcome inp.parsed inp.now).1
      (n + 1) hstep (fun i hi => hok i (List.mem_cons_of_mem inp hi))
    have harith : n + (inp :: rest).length = (n + 1) + rest.length := by
      simp [List.length_cons]
      omega
    rw [runRevisions, harith]
    exact hrest

/-- C8: after `N` successful `revise` calls on a lesson created with revision
counter 0, the counter equals `N`, exactly `N` revision rows exist numbered
`1..N` in order, and `get_revisions` returns them in that order. -/
theorem revision_numbering_after_n (L U : String) (db0 : DB) (inputs : List ReviseInput)
    (h0 : RevisionInv db0 L U 0)
    (hok : ∀ inp ∈ inputs, ∃ llm, inp.outcome = .ok llm) :
    RevisionInv (runRevisions L U db0 inputs) L U inputs.length ∧
    (get_lesson_revisions (runRevisions L U db0 inputs) L U).map (fun r => r.revision_number)
      = List.range' 1 inputs.length := by
  have hinv := runRevisions_inv L U inputs db0 0 h0 hok
  rw [Nat.zero_add] at hinv
  refine ⟨hinv, ?_⟩
  obtain ⟨⟨l, hplans, hid, huid, hcount⟩, hnums, hlid⟩ := hinv
  have hany : (runRevisions L U db0 inputs).lesson_plans.any (lessonMatches L U) = true := by
    rw [hplans]
    simp [lessonMatches, hid, huid]
  have hfil : (runRevisions L U db0 inputs).lesson_revisions.filter
      (fun r => r.lesson_id == L) = (runRevisions L U db0 inputs).lesson_revisions := by
    apply List.filter_eq_self.mpr
    intro a ha
    simp [hlid a ha]
  have hred : get_lesson_revisions (runRevisions L U db0 inputs) L U
      = orderByRevisionNumber ((runRevisions L U db0 inputs).lesson_revisions.filter
          (fun r => r.lesson_id == L)) := by
    unfold get_lesson_revisions
    rw [hany]
    rfl
  rw [hred, hfil, orderBy_of_sorted _ (pairwise_of_map_range' _ _ hnums), hnums]

/-- C8 witness: two successful revise calls (one parse failure, one parse
success) on the freshly created sample lesson leave the counter at 2 and the
history reading `[1, 2]`. -/
theorem revision_numbering_after_n_witness :
    RevisionInv (runRevisions "lesson-1" "alice" sampleDB [sampleReviseInp1, sampleReviseInp2])
      "lesson-1" "alice" 2 ∧
    (get_lesson_revisions (runRevisions "lesson-1" "alice" sampleDB
        [sampleReviseInp1, sampleReviseInp2]) "lesson-1" "alice").map
      (fun r => r.revision_number) = [1, 2] := by
  have h := revision_numbering_after_n "lesson-1" "alice" sampleDB
    [sampleReviseInp1, sampleReviseInp2]
    ⟨⟨sampleLesson, rfl, rfl, rfl, rfl⟩, rfl, by intro r hr; simp [sampleDB] at hr⟩
    (by
      intro inp hi
      rcases List.mem_cons.mp hi with h1 | h2
      · subst h1; exact ⟨_, rfl⟩
      · rcases List.mem_cons.mp h2 with h3 | h4
        · subst h3; exact ⟨_, rfl⟩
        · simp at h4)
  exact ⟨h.1, h.2.trans (by rfl)⟩
